import Mathlib

/-
Verification of the discount/pricing decision engine of the AISalesAssistant
backend: `PriceCalculatorService`, `CouponRepository`, `DiscountRepository` and
the discount-options configuration, shallowly embedded from the Python source.

Modelling conventions:
* `Decimal` money values are exact rationals (`ℚ`); Python floats that feed the
  recommendation scores are likewise modelled as exact rationals (no claim
  settled here depends on binary floating-point rounding).
* `datetime` values are integers (an abstract totally ordered timeline).
* Database/session state is passed explicitly: repository methods have type
  `State → args → result × State`; read-only queries return the state unchanged
  and writes return the updated state.
* Python exceptions are values of `PyErr`; code that can raise returns
  `Except PyErr α`.  Attribute/keyword lookups that the Python runtime resolves
  against a class definition are modelled by membership tests against the
  explicit field lists of those classes (copied from the source files), so that
  "this access fails" is a checkable proposition rather than an assumption.
* Pydantic model construction is modelled by checking the required (default-free)
  field names of the model against the keyword names the caller passes; pydantic
  ignores unknown keywords and raises a validation error when a required field
  is missing.  Branches guarded by a decidably-false membership test are dead
  code in this snapshot; their result values are filled with placeholder data
  and are proved unreachable by the theorems below.
-/

/-- Python exception values relevant to the embedded code. -/
inductive PyErr where
  | keyError (key : String)
  | attributeError (obj attr : String)
  | typeError (cls kwarg : String)
  | validationError (model : String) (missingFields : List String)
  deriving Repr, DecidableEq

/-- Python truthiness of an optional integer column: `None` and `0` are falsy. -/
def pyTruthyInt : Option ℤ → Bool
  | none => false
  | some n => n != 0

/-- Python truthiness of an optional decimal column: `None` and `0` are falsy. -/
def pyTruthyQ : Option ℚ → Bool
  | none => false
  | some q => q != 0

/-- A row of the `coupons` table (`app/models/database/coupon_db.py`). -/
structure CouponDB where
  coupon_id : String
  coupon_code : String
  coupon_name : String
  coupon_type : String
  discount_value : ℚ
  min_order_amount : ℚ
  max_discount : Option ℚ
  valid_from : ℤ
  valid_to : ℤ
  usage_limit : Option ℤ
  usage_limit_per_user : Option ℤ
  used_count : ℤ
  applicable_courses : Option (List String)
  description : Option String
  status : String
  created_at : ℤ
  updated_at : ℤ
  deriving Repr, DecidableEq

/-- A row of the `coupon_usage` table (`app/models/database/order_db.py`). -/
structure CouponUsageRow where
  usage_id : String
  coupon_id : String
  coupon_code : String
  user_id : String
  order_id : Option String
  course_ids : List String
  original_amount : ℚ
  discount_amount : ℚ
  final_amount : ℚ
  used_at : ℤ
  deriving Repr, DecidableEq

/-- The persistent state visible to `CouponRepository`. -/
structure CouponStore where
  coupons : List CouponDB
  usages : List CouponUsageRow
  deriving Repr, DecidableEq

/-- `CouponRepository.get_by_coupon_code`: a pure SELECT (`coupon_code` is
unique, so the first match is the row). -/
def get_by_coupon_code (st : CouponStore) (coupon_code : String) :
    Option CouponDB × CouponStore :=
  (st.coupons.find? (fun c => c.coupon_code == coupon_code), st)

/-- `CouponRepository.get_by_coupon_id`: a pure SELECT on the primary key. -/
def get_by_coupon_id (st : CouponStore) (coupon_id : String) :
    Option CouponDB × CouponStore :=
  (st.coupons.find? (fun c => c.coupon_id == coupon_id), st)

/-- `CouponRepository.get_user_coupon_usage_count`: `count(*)` over the usage
rows of one user and one coupon. -/
def get_user_coupon_usage_count (st : CouponStore) (user_id coupon_id : String) :
    ℤ × CouponStore :=
  (((st.usages.filter (fun u => u.user_id == user_id && u.coupon_id == coupon_id)).length : ℤ), st)

/-- The pydantic `Coupon` model (`app/models/coupon.py`), as produced by
`CouponRepository.to_model`. -/
structure Coupon where
  coupon_id : String
  coupon_code : String
  coupon_name : String
  coupon_type : String
  discount_value : ℚ
  min_order_amount : ℚ
  max_discount : Option ℚ
  valid_from : ℤ
  valid_to : ℤ
  usage_limit : Option ℤ
  usage_limit_per_user : Option ℤ
  used_count : ℤ
  applicable_courses : List String
  description : Option String
  status : String
  created_at : ℤ
  updated_at : ℤ
  deriving Repr, DecidableEq

/-- The field and validator constraints the pydantic `Coupon` model places on a
database row (`app/models/coupon.py`): field bounds (`ge`/`min_length`/
`max_length`, including `description`'s `max_length=500`), the enum coercions
of `coupon_type`/`status`, the `valid_to > valid_from` validator, and the
`discount_value` validator (`percentage` values at most 1, `fixed_amount`
values strictly positive). -/
def couponModelChecks (r : CouponDB) : Bool :=
  (1 ≤ r.coupon_code.length && r.coupon_code.length ≤ 50) &&
  (r.coupon_type == "percentage" || r.coupon_type == "fixed_amount" ||
    r.coupon_type == "free_shipping") &&
  decide (0 ≤ r.discount_value) &&
  decide (0 ≤ r.min_order_amount) &&
  (match r.max_discount with | none => true | some m => decide (0 ≤ m)) &&
  (match r.usage_limit with | none => true | some n => decide (1 ≤ n)) &&
  (match r.usage_limit_per_user with | none => true | some n => decide (1 ≤ n)) &&
  decide (0 ≤ r.used_count) &&
  (match r.description with | none => true | some d => d.length ≤ 500) &&
  (r.status == "active" || r.status == "inactive" || r.status == "expired" ||
    r.status == "used_up") &&
  decide (r.valid_from < r.valid_to) &&
  (!(r.coupon_type == "percentage") || decide (r.discount_value ≤ 1)) &&
  (!(r.coupon_type == "fixed_amount") || decide (0 < r.discount_value))

/-- `CouponRepository.to_model`: build the pydantic `Coupon` from a row;
pydantic raises a validation error when the row violates the model
constraints. -/
def to_model (r : CouponDB) : Except PyErr Coupon :=
  if couponModelChecks r then
    .ok { coupon_id := r.coupon_id, coupon_code := r.coupon_code,
          coupon_name := r.coupon_name, coupon_type := r.coupon_type,
          discount_value := r.discount_value, min_order_amount := r.min_order_amount,
          max_discount := r.max_discount, valid_from := r.valid_from,
          valid_to := r.valid_to, usage_limit := r.usage_limit,
          usage_limit_per_user := r.usage_limit_per_user, used_count := r.used_count,
          applicable_courses := r.applicable_courses.getD [],
          description := r.description, status := r.status,
          created_at := r.created_at, updated_at := r.updated_at }
  else
    .error (.validationError "Coupon" [])

/-- The validation error messages `validate_coupon_for_user` can emit, one
constructor per message string of the source; `belowMinOrder` carries the
amount interpolated into its message. -/
inductive ValidationMsg where
  | couponNotFound
  | couponDeactivated
  | couponNotStarted
  | couponExpired
  | usageCapReached
  | belowMinOrder (required : ℚ)
  | perUserCapReached
  deriving Repr, DecidableEq

/-- The pydantic `CouponValidation` model (`app/models/coupon.py`). -/
structure CouponValidation where
  is_valid : Bool
  coupon : Option Coupon
  validation_errors : List ValidationMsg
  applicable_courses : List String
  estimated_discount : Option ℚ
  min_order_required : Option ℚ
  deriving Repr, DecidableEq

/-- Field names of the pydantic `CouponValidation` model; note there is no
field named `discount_amount`. -/
def couponValidationFields : List String :=
  ["is_valid", "coupon", "validation_errors", "applicable_courses",
   "estimated_discount", "min_order_required"]

/-- `CouponRepository.validate_coupon_for_user`: the seven eligibility checks
followed by the discount computation.  The method only issues SELECTs; the
state is threaded through the two reads and returned unchanged. -/
def validate_coupon_for_user (st : CouponStore) (coupon_code user_id : String)
    (order_amount : ℚ) (current_time : ℤ) :
    Except PyErr CouponValidation × CouponStore :=
  let (copt, st) := get_by_coupon_code st coupon_code
  match copt with
  | none =>
      (.ok { is_valid := false, coupon := none,
             validation_errors := [.couponNotFound], applicable_courses := [],
             estimated_discount := some 0, min_order_required := none }, st)
  | some coupon =>
    match to_model coupon with
    | .error e => (.error e, st)
    | .ok coupon_model =>
      if coupon.status != "active" then
        (.ok { is_valid := false, coupon := some coupon_model,
               validation_errors := [.couponDeactivated], applicable_courses := [],
               estimated_discount := some 0, min_order_required := none }, st)
      else if current_time < coupon.valid_from then
        (.ok { is_valid := false, coupon := some coupon_model,
               validation_errors := [.couponNotStarted], applicable_courses := [],
               estimated_discount := some 0, min_order_required := none }, st)
      else if coupon.valid_to < current_time then
        (.ok { is_valid := false, coupon := some coupon_model,
               validation_errors := [.couponExpired], applicable_courses := [],
               estimated_discount := some 0, min_order_required := none }, st)
      else if pyTruthyInt coupon.usage_limit &&
              decide (coupon.usage_limit.getD 0 ≤ coupon.used_count) then
        (.ok { is_valid := false, coupon := some coupon_model,
               validation_errors := [.usageCapReached], applicable_courses := [],
               estimated_discount := some 0, min_order_required := none }, st)
      else if order_amount < coupon.min_order_amount then
        (.ok { is_valid := false, coupon := some coupon_model,
               validation_errors := [.belowMinOrder coupon.min_order_amount],
               applicable_courses := [], estimated_discount := some 0,
               min_order_required := some coupon.min_order_amount }, st)
      else
        let perUser := pyTruthyInt coupon.usage_limit_per_user
        let (user_used_count, st) :=
          if perUser then get_user_coupon_usage_count st user_id coupon.coupon_id
          else (0, st)
        if perUser && decide (coupon.usage_limit_per_user.getD 0 ≤ user_used_count) then
          (.ok { is_valid := false, coupon := some coupon_model,
                 validation_errors := [.perUserCapReached], applicable_courses := [],
                 estimated_discount := some 0, min_order_required := none }, st)
        else
          let discount_amount :=
            if coupon.coupon_type == "fixed_amount" then
              min coupon.discount_value order_amount
            else
              let d := order_amount * coupon.discount_value
              let d := if pyTruthyQ coupon.max_discount then
                         min d (coupon.max_discount.getD 0)
                       else d
              min d order_amount
          (.ok { is_valid := true, coupon := some coupon_model,
                 validation_errors := [],
                 applicable_courses := coupon.applicable_courses.getD [],
                 estimated_discount := some discount_amount,
                 min_order_required := none }, st)

/-- `CouponRepository.use_coupon`: fetch the coupon; if absent return `false`,
otherwise insert one usage row and increment `used_count` by one (there is no
re-validation of status, window or caps).  `usage_uuid` stands for the
generated `uuid4` and `now` for `datetime.now()`. -/
def use_coupon (st : CouponStore) (coupon_id user_id order_id : String)
    (discount_amount : ℚ) (usage_uuid : String) (now : ℤ) : Bool × CouponStore :=
  let (copt, st) := get_by_coupon_id st coupon_id
  match copt with
  | none => (false, st)
  | some coupon =>
    let usage : CouponUsageRow :=
      { usage_id := usage_uuid, coupon_id := coupon_id,
        coupon_code := coupon.coupon_code, user_id := user_id,
        order_id := some order_id, course_ids := [],
        original_amount := discount_amount, discount_amount := discount_amount,
        final_amount := 0, used_at := now }
    let st := { st with usages := st.usages ++ [usage] }
    let st := { st with coupons := st.coupons.map (fun c =>
        if c.coupon_id == coupon_id then
          { c with used_count := c.used_count + 1, updated_at := now }
        else c) }
    (true, st)

/-- A row of the `courses` table, restricted to the columns the price
calculator reads (`course_id`, `course_name`, `current_price`). -/
structure CourseDB where
  course_id : String
  course_name : String
  current_price : ℚ
  deriving Repr, DecidableEq

/-- `CourseRepository.get_by_course_id` as an abstract read-only lookup. -/
def CourseStore : Type := String → Option CourseDB

/-- `PriceCalculatorService._get_courses`: resolve each id, silently dropping
the ids that do not resolve. -/
def get_courses (repo : CourseStore) (course_ids : List String) : List CourseDB :=
  course_ids.filterMap repo

/-- One entry of `DISCOUNT_OPTIONS_CONFIG` (`app/config/discount_options.py`).
Every entry carries exactly these six keys. -/
structure DiscountCatalogEntry where
  option_name : String
  discount_type : String
  min_discount : ℚ
  max_discount : ℚ
  description : String
  prompt_guidance : String
  deriving Repr, DecidableEq

/-- The dictionary keys present in every `DISCOUNT_OPTIONS_CONFIG` entry; note
there is no key named `options`. -/
def catalogConfigKeys : List String :=
  ["option_name", "discount_type", "min_discount", "max_discount",
   "description", "prompt_guidance"]

/-- `DISCOUNT_OPTIONS_CONFIG`: the static discount catalog, in source order. -/
def DISCOUNT_OPTIONS_CONFIG : List (String × DiscountCatalogEntry) :=
  [("new_user",
    { option_name := "新用户首购折扣", discount_type := "percentage",
      min_discount := 1/10, max_discount := 3/10,
      description := "针对新用户的首次购买优惠，可根据用户意向强度调整",
      prompt_guidance := "新用户且学习意向强烈时使用，通常给15-25%折扣" }),
   ("urgent_conversion",
    { option_name := "紧急转化折扣", discount_type := "percentage",
      min_discount := 3/20, max_discount := 2/5,
      description := "针对高紧迫度用户的转化优惠，力度可较大",
      prompt_guidance := "用户紧迫度>=4且预算充足时使用，可给20-35%折扣" }),
   ("returning_user",
    { option_name := "老用户回购折扣", discount_type := "percentage",
      min_discount := 1/20, max_discount := 1/5,
      description := "针对已购买过课程用户的复购优惠",
      prompt_guidance := "老用户复购时使用，根据历史购买金额调整5-15%折扣" }),
   ("bulk_purchase",
    { option_name := "批量购买折扣", discount_type := "percentage",
      min_discount := 1/10, max_discount := 1/4,
      description := "购买多门课程时的批量优惠",
      prompt_guidance := "购买2门以上课程时使用，课程越多折扣越大" }),
   ("vip_discount",
    { option_name := "VIP专享折扣", discount_type := "percentage",
      min_discount := 1/5, max_discount := 1/2,
      description := "针对高价值用户的专享优惠，折扣力度最大",
      prompt_guidance := "识别为高价值用户或特殊情况时使用，需谨慎" })]

/-- `get_discount_option`: look one category up in the catalog (unknown
categories yield `none`). -/
def get_discount_option (option_type : String) : Option DiscountCatalogEntry :=
  (DISCOUNT_OPTIONS_CONFIG.find? (fun e => e.1 == option_type)).map (fun e => e.2)

/-- `validate_discount_in_range` (`app/config/discount_options.py`): true iff
the category exists and `min_discount ≤ value ≤ max_discount`. -/
def validate_discount_in_range (option_type : String) (discount_value : ℚ) : Bool :=
  match get_discount_option option_type with
  | none => false
  | some o => decide (o.min_discount ≤ discount_value) &&
              decide (discount_value ≤ o.max_discount)

/-- Column names declared by `AppliedDiscountDB`
(`app/models/database/discount_db.py`).  Note: no `id`, no `course_id`, no
`order_id`, no `updated_at` column. -/
def appliedDiscountDBColumns : List String :=
  ["discount_id", "user_id", "option_type", "discount_type", "discount_value",
   "applicable_course_ids", "original_amount", "discount_amount", "final_amount",
   "agent_reasoning", "created_by", "valid_until", "is_used", "used_at",
   "created_at"]

/-- Keyword arguments `DiscountRepository.create_applied_discount` passes to the
`AppliedDiscountDB(...)` constructor. -/
def createAppliedDiscountKwargs : List String :=
  ["user_id", "discount_type", "discount_value", "course_id", "order_id",
   "agent_reasoning", "valid_until", "is_used"]

/-- Methods defined on `DiscountRepository`
(`app/repositories/discount_repository.py`); note there is no method named
`get`. -/
def discountRepositoryMethods : List String :=
  ["create_applied_discount", "get_user_active_discounts",
   "get_best_discount_for_user", "_calculate_discount_amount", "use_discount",
   "get_user_discount_history", "get_discount_effectiveness_stats",
   "clean_expired_discounts", "get_agent_discount_patterns", "to_model"]

/-- An applied-discount record in the shape `DiscountRepository` manipulates it
(an integer `id` key, `course_id`/`order_id`/`updated_at` attributes).  This is
the repository's expectation; `appliedDiscountDBColumns` records what the table
actually declares, and the mismatch between the two is what the theorems about
this repository establish. -/
structure AppliedRecord where
  id : ℤ
  user_id : String
  discount_type : String
  discount_value : ℚ
  course_id : Option String
  order_id : Option String
  agent_reasoning : Option String
  valid_until : ℤ
  is_used : Bool
  used_at : Option ℤ
  updated_at : Option ℤ
  deriving Repr, DecidableEq

/-- A row of the usage-history table as `use_discount` tries to write it. -/
structure HistoryRow where
  applied_discount_id : ℤ
  user_id : String
  order_id : String
  discount_amount : ℚ
  used_at : ℤ
  deriving Repr, DecidableEq

/-- The persistent state visible to `DiscountRepository`. -/
structure Ledger where
  applied : List AppliedRecord
  history : List HistoryRow
  deriving Repr, DecidableEq

/-- `DiscountRepository.create_applied_discount`: defaults `valid_until` to 24
hours from now, then constructs `AppliedDiscountDB(user_id=…, discount_type=…,
discount_value=…, course_id=…, order_id=…, agent_reasoning=…, valid_until=…,
is_used=False)`.  The declarative constructor rejects any keyword that is not a
mapped column, and `course_id`/`order_id` are not columns of
`AppliedDiscountDB`, so the construction raises before anything is added to the
session; the method has no exception handler.  The `ok` branch (reachable only
if every keyword were a column) records the write the source intends. -/
def create_applied_discount (ledger : Ledger) (user_id discount_type : String)
    (discount_value : ℚ) (course_id order_id agent_reasoning : Option String)
    (valid_until : Option ℤ) (now : ℤ) : Except PyErr (AppliedRecord × Ledger) :=
  let vu := valid_until.getD (now + 24 * 60 * 60)
  match createAppliedDiscountKwargs.filter
      (fun k => !appliedDiscountDBColumns.contains k) with
  | [] =>
      let record : AppliedRecord :=
        { id := (ledger.applied.length : ℤ) + 1, user_id := user_id,
          discount_type := discount_type, discount_value := discount_value,
          course_id := course_id, order_id := order_id,
          agent_reasoning := agent_reasoning, valid_until := vu,
          is_used := false, used_at := none, updated_at := none }
      .ok (record, { ledger with applied := ledger.applied ++ [record] })
  | k :: _ => .error (.typeError "AppliedDiscountDB" k)

/-- `DiscountRepository.use_discount`.  Building the UPDATE statement reads the
class attribute `AppliedDiscountDB.id`; the table declares no `id` column, so
the lookup raises `AttributeError`, the bare `except` swallows it and the
method returns `False` without touching the store.  The guarded branch records
the semantics the source intends (conditional flip of `is_used`, then a history
row via the likewise nonexistent `self.get`). -/
def use_discount (ledger : Ledger) (discount_id : ℤ) (order_id : String)
    (actual_discount_amount : ℚ) (now : ℤ) : Bool × Ledger :=
  if appliedDiscountDBColumns.contains "id" &&
     appliedDiscountDBColumns.contains "updated_at" then
    -- dead in this snapshot: `id`/`updated_at` are not columns
    let matched := ledger.applied.filter (fun r => r.id == discount_id && !r.is_used)
    let applied' := ledger.applied.map (fun r =>
      if r.id == discount_id && !r.is_used then
        { r with is_used := true, used_at := some now,
                 order_id := some order_id, updated_at := some now }
      else r)
    let ledger := { ledger with applied := applied' }
    if matched.length == 0 then (false, ledger)
    else if discountRepositoryMethods.contains "get" then
      match ledger.applied.find? (fun r => r.id == discount_id) with
      | some r =>
          (true, { ledger with history := ledger.history ++
                     [{ applied_discount_id := discount_id, user_id := r.user_id,
                        order_id := order_id,
                        discount_amount := actual_discount_amount,
                        used_at := now }] })
      | none => (false, ledger)
    else
      -- `(await self.get(discount_id)).user_id`: `DiscountRepository` defines
      -- no `get`; the AttributeError is swallowed and `False` returned after
      -- the update already ran.
      (false, ledger)
  else (false, ledger)

/-- The user-profile dictionary read by the price calculator; each signal is
optional (`dict.get`).  `none` at the top level stands for a missing or empty
(falsy) profile dict. -/
structure UserProfile where
  price_sensitivity : Option String := none
  value_perception : Option String := none
  is_new_user : Option Bool := none
  purchase_history_count : Option ℤ := none
  urgency_level : Option ℤ := none
  deriving Repr, DecidableEq

/-- The pydantic `OrderItem` model (`app/models/order.py`). -/
structure OrderItemM where
  item_id : String
  course_id : String
  course_name : String
  original_price : ℚ
  discounted_price : ℚ
  quantity : ℤ
  deriving Repr, DecidableEq

/-- The pydantic `PriceCalculation` model (`app/models/order.py`). -/
structure PriceCalculationM where
  course_items : List OrderItemM
  original_amount : ℚ
  discount_amount : ℚ
  coupon_discount : ℚ
  final_amount : ℚ
  savings : ℚ
  savings_percentage : ℚ
  deriving Repr, DecidableEq

/-- Required (default-free) fields of the pydantic `OrderItem` model. -/
def orderItemRequiredFields : List String :=
  ["item_id", "course_id", "course_name", "original_price", "discounted_price"]

/-- Keyword names `_calculate_base_price` passes to `OrderItem(...)`:
`OrderItem(course_id=…, course_name=…, original_price=…, discount_price=…,
quantity=1, subtotal=…)`. -/
def orderItemCallKwargs : List String :=
  ["course_id", "course_name", "original_price", "discount_price", "quantity",
   "subtotal"]

/-- Required (default-free) fields of the pydantic `PriceCalculation` model. -/
def priceCalculationRequiredFields : List String :=
  ["course_items", "original_amount", "final_amount", "savings",
   "savings_percentage"]

/-- Keyword names the price-calculator service passes to
`PriceCalculation(...)`: `PriceCalculation(original_total=…, discount_total=…,
final_total=…, coupon_discount=…, auto_discount=…, items=…)`. -/
def priceCalculationCallKwargs : List String :=
  ["original_total", "discount_total", "final_total", "coupon_discount",
   "auto_discount", "items"]

/-- The required fields a pydantic call leaves unset (pydantic ignores unknown
keywords and reports the missing required fields). -/
def missingRequired (required provided : List String) : List String :=
  required.filter (fun f => !provided.contains f)

/-- The `OrderItem(...)` construction in `_calculate_base_price`.  The call
supplies none of `item_id`/`discounted_price`, so pydantic rejects it; the
`ok` branch (dead here) fills the fields the call does provide. -/
def orderItemFromService (course : CourseDB) : Except PyErr OrderItemM :=
  match missingRequired orderItemRequiredFields orderItemCallKwargs with
  | [] =>
      .ok { item_id := "", course_id := course.course_id,
            course_name := course.course_name,
            original_price := course.current_price,
            discounted_price := course.current_price, quantity := 1 }
  | missing => .error (.validationError "OrderItem" missing)

/-- The `PriceCalculation(...)` construction used by the service.  None of the
model's required fields is among the keywords the service passes, so pydantic
rejects every such call; the `ok` branch (dead here) maps the service's
keywords onto the nearest model fields. -/
def priceCalculationFromService (original_total discount_total final_total
    coupon_discount auto_discount : ℚ) (items : List OrderItemM) :
    Except PyErr PriceCalculationM :=
  match missingRequired priceCalculationRequiredFields priceCalculationCallKwargs with
  | [] =>
      .ok { course_items := items, original_amount := original_total,
            discount_amount := discount_total, coupon_discount := coupon_discount,
            final_amount := final_total, savings := auto_discount,
            savings_percentage := 0 }
  | missing => .error (.validationError "PriceCalculation" missing)

/-- `PriceCalculatorService._calculate_base_price`: sum the current prices,
resolve the coupon discount through the validator (reading the nonexistent
`validation.discount_amount` attribute on success), build the order items and
the `PriceCalculation` result. -/
def calculate_base_price (st : CouponStore) (courses : List CourseDB)
    (user_id : String) (coupon_code : Option String) (now : ℤ) :
    Except PyErr PriceCalculationM × CouponStore :=
  let original_total := (courses.map (fun c => c.current_price)).sum
  let (couponRes, st) : Except PyErr ℚ × CouponStore :=
    match coupon_code with
    | none => (.ok 0, st)
    | some code =>
      let (vRes, st) := validate_coupon_for_user st code user_id original_total now
      match vRes with
      | .error e => (.error e, st)
      | .ok validation =>
        if validation.is_valid then
          -- `coupon_discount = validation.discount_amount`: the model's field
          -- is `estimated_discount`; there is no `discount_amount` attribute.
          if couponValidationFields.contains "discount_amount" then
            (.ok (validation.estimated_discount.getD 0), st)  -- dead branch
          else
            (.error (.attributeError "CouponValidation" "discount_amount"), st)
        else (.ok 0, st)
  match couponRes with
  | .error e => (.error e, st)
  | .ok coupon_discount =>
    match courses.mapM orderItemFromService with
    | .error e => (.error e, st)
    | .ok items =>
      let final_total := original_total - coupon_discount
      (priceCalculationFromService original_total coupon_discount final_total
        coupon_discount 0 items, st)

/-- `PriceCalculatorService._calculate_no_discount_score`. -/
def calculate_no_discount_score (profile : Option UserProfile) : ℚ :=
  match profile with
  | none => 3/10
  | some p =>
    let s : ℚ := 3/10
    let s := if p.price_sensitivity == some "low" then s + 4/10
             else if p.price_sensitivity == some "high" then s - 2/10
             else s
    let s := if p.value_perception == some "high" then s + 2/10 else s
    max 0 (min 1 s)

/-- `PriceCalculatorService._should_offer_category`: without a (truthy) profile
every category is offered; with one, `new_user` needs the `is_new_user` flag
(defaulting to true), `price_sensitive` needs high sensitivity, `loyalty` needs
more than two past purchases, `bulk_purchase` needs at least two courses, and
`general` is unconditional. -/
def should_offer_category (category : String) (profile : Option UserProfile)
    (courses : List CourseDB) : Bool :=
  match profile with
  | none => true
  | some p =>
    if category == "new_user" && (p.is_new_user.getD true) then true
    else if category == "price_sensitive" && (p.price_sensitivity == some "high") then true
    else if category == "loyalty" && decide (2 < p.purchase_history_count.getD 0) then true
    else if category == "bulk_purchase" && decide (2 ≤ courses.length) then true
    else if category == "general" then true
    else false

/-- One entry of the `discount_options` list the agent is offered. -/
structure AgentOptionEntry where
  type : String
  value : ℚ
  description : String
  estimated_discount : ℚ
  final_amount : ℚ
  recommendation_score : ℚ
  reasoning : String
  category : Option String
  deriving Repr, DecidableEq

/-- Stable insertion keeping existing order among equal scores. -/
def insertDescByScore (x : AgentOptionEntry) :
    List AgentOptionEntry → List AgentOptionEntry
  | [] => [x]
  | y :: ys =>
      if y.recommendation_score < x.recommendation_score then x :: y :: ys
      else y :: insertDescByScore x ys

/-- `options.sort(key=lambda x: x["recommendation_score"], reverse=True)`:
a stable descending sort on the score. -/
def sortDescByScore (l : List AgentOptionEntry) : List AgentOptionEntry :=
  l.foldr insertDescByScore []

/-- `PriceCalculatorService._get_discount_options_for_agent`: append the
always-present "no discount" option, then iterate the catalog; for every
eligible category the body's first step is the subscript `config["options"]`,
and no catalog entry carries an `options` key, so the first eligible category
raises `KeyError("options")` (the per-option entry construction that follows
the subscript in the source is unreachable with this catalog and is not
modelled further). -/
def get_discount_options_for_agent (user_id : String) (courses : List CourseDB)
    (base_amount : ℚ) (user_profile : Option UserProfile) :
    Except PyErr (List AgentOptionEntry) :=
  let noneOption : AgentOptionEntry :=
    { type := "none", value := 0, description := "不提供额外折扣",
      estimated_discount := 0, final_amount := base_amount,
      recommendation_score := calculate_no_discount_score user_profile,
      reasoning := "保持原价，适用于价格不敏感或高价值感知的用户",
      category := none }
  match DISCOUNT_OPTIONS_CONFIG.foldlM
      (fun (acc : List AgentOptionEntry) entry =>
        if should_offer_category entry.1 user_profile courses then
          if catalogConfigKeys.contains "options" then
            (Except.ok acc : Except PyErr (List AgentOptionEntry))  -- dead branch
          else Except.error (.keyError "options")
        else Except.ok acc)
      [noneOption] with
  | .error e => .error e
  | .ok options => .ok (sortDescByScore options)

/-- `PriceCalculatorService._select_recommended_option`: `max` by score over a
possibly empty list (Python's `max` keeps the first of equal maxima). -/
def select_recommended_option (options : List AgentOptionEntry) :
    Option AgentOptionEntry :=
  options.foldl (fun acc o =>
    match acc with
    | none => some o
    | some b => if b.recommendation_score < o.recommendation_score then some o
                else some b) none

/-- The result dictionary of `calculate_price_with_options` (the guidance and
profile-factor sub-dictionaries, pure presentation strings, are not
modelled). -/
structure PriceAnalysis where
  base_calculation : PriceCalculationM
  discount_options : List AgentOptionEntry
  recommended_option : Option AgentOptionEntry
  deriving Repr, DecidableEq

/-- `PriceCalculatorService._empty_price_calculation`:
`PriceCalculation(original_total=0, discount_total=0, final_total=0,
coupon_discount=0, auto_discount=0, items=[])`. -/
def empty_price_calculation : Except PyErr PriceCalculationM :=
  priceCalculationFromService 0 0 0 0 0 []

/-- `PriceCalculatorService._empty_price_result`: the zeroed analysis built
around `_empty_price_calculation()`. -/
def empty_price_result : Except PyErr PriceAnalysis :=
  match empty_price_calculation with
  | .error e => .error e
  | .ok pc => .ok { base_calculation := pc, discount_options := [],
                    recommended_option := none }

/-- `PriceCalculatorService.calculate_price_with_options`. -/
def calculate_price_with_options (crs : CourseStore) (st : CouponStore)
    (course_ids : List String) (user_id : String)
    (user_profile : Option UserProfile) (coupon_code : Option String)
    (now : ℤ) : Except PyErr PriceAnalysis × CouponStore :=
  let courses := get_courses crs course_ids
  if courses.isEmpty then (empty_price_result, st)
  else
    let (bRes, st) := calculate_base_price st courses user_id coupon_code now
    match bRes with
    | .error e => (.error e, st)
    | .ok base =>
      match get_discount_options_for_agent user_id courses base.original_amount
          user_profile with
      | .error e => (.error e, st)
      | .ok options =>
        (.ok { base_calculation := base, discount_options := options,
               recommended_option := select_recommended_option options }, st)

/-- The discount selected by the agent
(`selected_discount["type"]`, `selected_discount["value"]`). -/
structure SelectedDiscount where
  type : String
  value : ℚ
  deriving Repr, DecidableEq

/-- The agent-discount amount computed by `apply_agent_discount_decision`
(lines 107-113): a `percentage` value is divided by 100 before being applied
to the base amount. -/
def agent_discount_amount (dtype : String) (value original_total : ℚ) : ℚ :=
  if dtype == "percentage" then original_total * (value / 100)
  else if dtype == "fixed_amount" then min value original_total
  else 0

/-- `PriceCalculatorService.apply_agent_discount_decision`. -/
def apply_agent_discount_decision (crs : CourseStore) (st : CouponStore)
    (ledger : Ledger) (user_id : String) (course_ids : List String)
    (selected_discount : Option SelectedDiscount) (agent_reasoning : String)
    (coupon_code : Option String) (now : ℤ) :
    Except PyErr PriceCalculationM × CouponStore × Ledger :=
  let courses := get_courses crs course_ids
  if courses.isEmpty then (empty_price_calculation, st, ledger)
  else
    let (bRes, st) := calculate_base_price st courses user_id coupon_code now
    match bRes with
    | .error e => (.error e, st, ledger)
    | .ok base =>
      let withAgent : ℚ → Ledger → Except PyErr PriceCalculationM × CouponStore × Ledger :=
        fun agent_discount ledger =>
          let total_discount := base.coupon_discount + agent_discount
          let final_total := max (base.original_amount - total_discount) 0
          (priceCalculationFromService base.original_amount total_discount
            final_total base.coupon_discount agent_discount base.course_items,
           st, ledger)
      match selected_discount with
      | none => withAgent 0 ledger
      | some sel =>
        if sel.type != "none" then
          match create_applied_discount ledger user_id sel.type sel.value
              none none (some agent_reasoning) none now with
          | .error e => (.error e, st, ledger)
          | .ok (_, ledger') =>
              withAgent (agent_discount_amount sel.type sel.value
                base.original_amount) ledger'
        else withAgent 0 ledger

/-- `Coupon.calculate_discount` (`app/models/coupon.py`): zero below the
minimum order amount; otherwise the raw discount, clamped by a truthy
`max_discount`, and finally capped by the order amount. -/
def Coupon.calculate_discount (c : Coupon) (order_amount : ℚ) : ℚ :=
  if order_amount < c.min_order_amount then 0
  else
    let discount := if c.coupon_type == "percentage" then
                      order_amount * c.discount_value
                    else c.discount_value
    let discount := if pyTruthyQ c.max_discount &&
                       decide (c.max_discount.getD 0 < discount) then
                      c.max_discount.getD 0
                    else discount
    min discount order_amount

/-- The verdict shape used to state claim C3: validity, the error of the first
failing check, the computed discount, and the minimum-order amount returned by
check 6. -/
structure ClaimVerdict where
  is_valid : Bool
  error : Option ValidationMsg
  discount_amount : ℚ
  min_order_required : Option ℚ
  deriving Repr, DecidableEq

/-- Stated from the words of (amended) claim C3: `fixed_amount` gives
`min(discount_value, order_amount)`; `percentage` gives
`order_amount * discount_value`, capped by `max_discount` when it is set and
nonzero, then capped by `order_amount`. -/
def claimCouponDiscount (c : CouponDB) (order_amount : ℚ) : ℚ :=
  if c.coupon_type == "fixed_amount" then min c.discount_value order_amount
  else
    let raw := order_amount * c.discount_value
    let capped :=
      match c.max_discount with
      | some m => if m ≠ 0 then min raw m else raw
      | none => raw
    min capped order_amount

/-- Stated from the words of claim C3: the seven checks, in order, short-
circuiting on the first failure; the discount is computed only when all
pass. -/
def claimValidationVerdict (st : CouponStore) (coupon_code user_id : String)
    (order_amount : ℚ) (now : ℤ) : ClaimVerdict :=
  match st.coupons.find? (fun c => c.coupon_code == coupon_code) with
  | none => { is_valid := false, error := some .couponNotFound,
              discount_amount := 0, min_order_required := none }
  | some c =>
    if c.status != "active" then
      { is_valid := false, error := some .couponDeactivated,
        discount_amount := 0, min_order_required := none }
    else if now < c.valid_from then
      { is_valid := false, error := some .couponNotStarted,
        discount_amount := 0, min_order_required := none }
    else if c.valid_to < now then
      { is_valid := false, error := some .couponExpired,
        discount_amount := 0, min_order_required := none }
    else if c.usage_limit.isSome && decide (c.usage_limit.getD 0 ≤ c.used_count) then
      { is_valid := false, error := some .usageCapReached,
        discount_amount := 0, min_order_required := none }
    else if order_amount < c.min_order_amount then
      { is_valid := false, error := some (.belowMinOrder c.min_order_amount),
        discount_amount := 0, min_order_required := some c.min_order_amount }
    else if c.usage_limit_per_user.isSome &&
            decide (c.usage_limit_per_user.getD 0 ≤
              ((st.usages.filter (fun u => u.user_id == user_id &&
                 u.coupon_id == c.coupon_id)).length : ℤ)) then
      { is_valid := false, error := some .perUserCapReached,
        discount_amount := 0, min_order_required := none }
    else
      { is_valid := true, error := none,
        discount_amount := claimCouponDiscount c order_amount,
        min_order_required := none }

/-- An empty coupon store. -/
def emptyCouponStore : CouponStore := { coupons := [], usages := [] }

/-- An empty discount ledger. -/
def emptyLedger : Ledger := { applied := [], history := [] }

/-- Scenario A/B coupon: `PYTHON50`, fixed amount 50, minimum order 200. -/
def python50 : CouponDB :=
  { coupon_id := "cp50", coupon_code := "PYTHON50", coupon_name := "Python课程券",
    coupon_type := "fixed_amount", discount_value := 50, min_order_amount := 200,
    max_discount := none, valid_from := 0, valid_to := 1000, usage_limit := none,
    usage_limit_per_user := none, used_count := 0, applicable_courses := none,
    description := none, status := "active", created_at := 0, updated_at := 0 }

/-- A store holding only `python50`. -/
def storePython50 : CouponStore := { coupons := [python50], usages := [] }

/-- A percentage coupon whose `max_discount` is set to the (model-legal) value
0: the Python truthiness test skips the cap for it. -/
def zeroCapRow : CouponDB :=
  { coupon_id := "cp0", coupon_code := "ZEROCAP", coupon_name := "零上限券",
    coupon_type := "percentage", discount_value := 1/5, min_order_amount := 0,
    max_discount := some 0, valid_from := 0, valid_to := 1000,
    usage_limit := none, usage_limit_per_user := none, used_count := 0,
    applicable_courses := none, description := none, status := "active",
    created_at := 0, updated_at := 0 }

/-- A store holding only `zeroCapRow`. -/
def storeZeroCap : CouponStore := { coupons := [zeroCapRow], usages := [] }

/-- The pydantic model object `to_model` produces for `zeroCapRow`. -/
def zeroCapCoupon : Coupon :=
  { coupon_id := "cp0", coupon_code := "ZEROCAP", coupon_name := "零上限券",
    coupon_type := "percentage", discount_value := 1/5, min_order_amount := 0,
    max_discount := some 0, valid_from := 0, valid_to := 1000,
    usage_limit := none, usage_limit_per_user := none, used_count := 0,
    applicable_courses := [], description := none, status := "active",
    created_at := 0, updated_at := 0 }

/-- Scenario D coupon (pydantic model): percentage 0.20, `max_discount`
50.00. -/
def scenarioDCoupon : Coupon :=
  { coupon_id := "cpD", coupon_code := "PERC20", coupon_name := "八折封顶券",
    coupon_type := "percentage", discount_value := 1/5, min_order_amount := 0,
    max_discount := some 50, valid_from := 0, valid_to := 1000,
    usage_limit := none, usage_limit_per_user := none, used_count := 0,
    applicable_courses := [], description := none, status := "active",
    created_at := 0, updated_at := 0 }

/-- Scenario E profile: `user_profile = {"price_sensitivity": "high"}`. -/
def profileE : UserProfile := { price_sensitivity := some "high" }

/-- A course priced 299.00 (Scenario E). -/
def course299 : CourseDB :=
  { course_id := "c299", course_name := "Python入门", current_price := 299 }

/-- A course priced 300.00. -/
def course300 : CourseDB :=
  { course_id := "c300", course_name := "Python进阶", current_price := 300 }

/-- A course priced 500.00 (Scenario F). -/
def course500 : CourseDB :=
  { course_id := "c500", course_name := "Python实战", current_price := 500 }

/-- A course store resolving only `"c500"` (Scenario F). -/
def courseStoreF : CourseStore :=
  fun course_id => if course_id == "c500" then some course500 else none

/-- A course store resolving nothing. -/
def courseStoreEmptyFn : CourseStore := fun _ => none

/-- A coupon that is deactivated, past its window and at its usage cap: used by
the C10 witness to show `use_coupon` consumes it anyway. -/
def staleCoupon : CouponDB :=
  { coupon_id := "cpStale", coupon_code := "STALE", coupon_name := "过期券",
    coupon_type := "fixed_amount", discount_value := 10, min_order_amount := 0,
    max_discount := none, valid_from := -100, valid_to := -10,
    usage_limit := some 3, usage_limit_per_user := some 1, used_count := 3,
    applicable_courses := none, description := none, status := "expired",
    created_at := -100, updated_at := -100 }

/-- A store holding only `staleCoupon`. -/
def storeStale : CouponStore := { coupons := [staleCoupon], usages := [] }

/-- C1: the claim says `calculate_price_with_options` returns, for every
non-empty resolved course set, a scored and sorted `discount_options` list.
In fact, as soon as any catalog category is eligible the options enumerator
reads `config["options"]`, a key no `DISCOUNT_OPTIONS_CONFIG` entry has, and
raises `KeyError("options")`.  On Scenario E's input (one course priced
299.00, profile with high price sensitivity) the `new_user` category is
eligible because `is_new_user` defaults to true, so the enumeration errors
instead of returning the option list. -/
theorem discount_options_scenarioE_keyerror :
    should_offer_category "new_user" (some profileE) [course299] = true ∧
    get_discount_options_for_agent "u1" [course299] 299 (some profileE)
      = .error (.keyError "options") := by
  constructor
  · rfl
  · rfl

/-- C2: the claim says Scenario F returns `final_total = 425.00` and persists
an applied-discount record with value 0.15.  In fact
`apply_agent_discount_decision` raises while building the base calculation:
the `OrderItem(...)` call omits the required fields `item_id` and
`discounted_price`, so pydantic rejects it and nothing is returned or
persisted.  Moreover the agent-discount formula divides the fractional
percentage by 100, so even with the construction fixed a 0.15 selection on a
500.00 base would discount 0.75 (final 499.25), not 75.00 (final 425.00). -/
theorem apply_agent_discount_scenarioF :
    apply_agent_discount_decision courseStoreF emptyCouponStore emptyLedger
        "u1" ["c500"] (some { type := "percentage", value := 3/20 }) "理由" none 0
      = (.error (.validationError "OrderItem" ["item_id", "discounted_price"]),
         emptyCouponStore, emptyLedger) ∧
    agent_discount_amount "percentage" (3/20) 500 = 3/4 ∧
    ¬ ((500 : ℚ) - agent_discount_amount "percentage" (3/20) 500 = 425) := by
  refine ⟨rfl, by norm_num [agent_discount_amount], by norm_num [agent_discount_amount]⟩

/-- C4: the claim says `use_discount` on an existing unused record flips
`is_used`, appends a usage-history row and returns true.  In fact every call
returns `False` and leaves the store untouched: the UPDATE is keyed on the
class attribute `AppliedDiscountDB.id`, which is not a declared column
(the primary key is `discount_id`), so statement construction raises
`AttributeError` and the bare `except` swallows it; the history step would
additionally call the nonexistent `self.get`. -/
theorem use_discount_always_false (ledger : Ledger) (discount_id : ℤ)
    (order_id : String) (amount : ℚ) (now : ℤ) :
    use_discount ledger discount_id order_id amount now = (false, ledger) := rfl

/-- C6: the claim says records created via `create_applied_discount` are
range-checked against the catalog at write time.  In fact the method performs
no range validation at all — its result does not depend on whether
`discount_value` is inside the catalog range (0.9 is outside `new_user`'s
[0.1, 0.3]); every call is rejected for an unrelated reason, the `course_id`
keyword that `AppliedDiscountDB` does not declare, so no record (in range or
not) is ever created. -/
theorem create_applied_discount_no_range_check (ledger : Ledger)
    (user_id discount_type : String) (discount_value : ℚ)
    (course_id order_id agent_reasoning : Option String)
    (valid_until : Option ℤ) (now : ℤ) :
    create_applied_discount ledger user_id discount_type discount_value
        course_id order_id agent_reasoning valid_until now
      = .error (.typeError "AppliedDiscountDB" "course_id") ∧
    validate_discount_in_range "new_user" (9/10) = false := by
  refine ⟨rfl, by norm_num [validate_discount_in_range, get_discount_option,
    DISCOUNT_OPTIONS_CONFIG]⟩

/-- C5: the claim says a successful coupon validation inside
`_calculate_base_price` sets `coupon_discount` to the validator's amount.
In fact, on a valid coupon (PYTHON50: fixed 50.00, minimum 200.00, order
total 300.00, validator computes 50.00) the service reads
`validation.discount_amount`, an attribute `CouponValidation` does not define
(its field is `estimated_discount`), and raises `AttributeError`; the claimed
behaviour on failed validation (discount 0, errors discarded) is the only
reachable path. -/
theorem calculate_base_price_attribute_error :
    ((validate_coupon_for_user storePython50 "PYTHON50" "u1" 300 50).1.map
        (fun v => (v.is_valid, v.estimated_discount))) = .ok (true, some 50) ∧
    (calculate_base_price storePython50 [course300] "u1" (some "PYTHON50") 50).1
      = .error (.attributeError "CouponValidation" "discount_amount") := by
  constructor
  · norm_num [validate_coupon_for_user, get_by_coupon_code, storePython50,
      python50, to_model, couponModelChecks, get_user_coupon_usage_count,
      pyTruthyInt, pyTruthyQ, Except.map,
      show "PYTHON50".length = 8 from rfl,
      show ¬ ("fixed_amount" = "percentage") from by decide]
  · norm_num [calculate_base_price, validate_coupon_for_user, get_by_coupon_code,
      storePython50, python50, course300, to_model, couponModelChecks,
      get_user_coupon_usage_count, pyTruthyInt, pyTruthyQ,
      show "PYTHON50".length = 8 from rfl,
      show ¬ ("fixed_amount" = "percentage") from by decide,
      show ¬ ("discount_amount" ∈ couponValidationFields) from by decide]

/-- With the model bounds (`usage_limit` fields are at least 1 when set), the
Python truthiness test on an optional limit coincides with "is set". -/
theorem pyTruthyInt_eq_isSome {o : Option ℤ} (h : ∀ n, o = some n → 1 ≤ n) :
    pyTruthyInt o = o.isSome := by
  cases o with
  | none => rfl
  | some n =>
    have h1 := h n rfl
    simp only [pyTruthyInt, Option.isSome_some, bne_iff_ne, ne_eq,
      decide_eq_true_eq]
    omega

/-- A row accepted by the `Coupon` model has both usage limits at least 1
whenever they are set. -/
theorem couponModelChecks_limits {c : CouponDB}
    (h : couponModelChecks c = true) :
    (∀ n, c.usage_limit = some n → 1 ≤ n) ∧
    (∀ n, c.usage_limit_per_user = some n → 1 ≤ n) := by
  unfold couponModelChecks at h
  constructor
  · intro n hn
    rw [hn] at h
    simp only [Bool.and_eq_true, decide_eq_true_eq] at h
    tauto
  · intro n hn
    rw [hn] at h
    simp only [Bool.and_eq_true, decide_eq_true_eq] at h
    tauto

/-- The discount computation of `validate_coupon_for_user` agrees, for every
row, with the claim's (amended) description: the truthiness cap and the
"set and nonzero" cap are the same function. -/
theorem code_discount_eq_claim (c : CouponDB) (amt : ℚ) :
    (if c.coupon_type = "fixed_amount" then c.discount_value ⊓ amt
     else
       (if pyTruthyQ c.max_discount = true
        then amt * c.discount_value ⊓ c.max_discount.getD 0
        else amt * c.discount_value) ⊓ amt)
      = claimCouponDiscount c amt := by
  unfold claimCouponDiscount
  cases hmd : c.max_discount with
  | none => simp [pyTruthyQ]
  | some m =>
    by_cases hm : m = 0
    · simp [pyTruthyQ, hm]
    · simp [pyTruthyQ, hm]

/-- C3 (counterexample): the claim as stated says a percentage discount is
"capped by max_discount when set".  `zeroCapRow` has `max_discount` set to 0
(a value both the database column and the pydantic model accept), yet
validation succeeds with `estimated_discount = 20` on an order of 100 — the
Python truthiness test `if coupon.max_discount:` skips the cap for the value
0, and 20 is not at most the cap 0. -/
theorem validate_coupon_zero_max_discount_cex :
    zeroCapRow.max_discount = some 0 ∧
    couponModelChecks zeroCapRow = true ∧
    ((validate_coupon_for_user storeZeroCap "ZEROCAP" "u1" 100 50).1.map
        (fun v => (v.is_valid, v.estimated_discount))) = .ok (true, some 20) ∧
    ¬ ((20 : ℚ) ≤ 0) := by
  refine ⟨rfl, ?_, ?_, by norm_num⟩
  · norm_num [couponModelChecks, zeroCapRow,
      show "ZEROCAP".length = 7 from rfl,
      show ¬ ("percentage" = "fixed_amount") from by decide]
  · norm_num [validate_coupon_for_user, get_by_coupon_code, storeZeroCap,
      zeroCapRow, to_model, couponModelChecks, get_user_coupon_usage_count,
      pyTruthyInt, pyTruthyQ, Except.map, min_def,
      show "ZEROCAP".length = 7 from rfl,
      show ¬ ("percentage" = "fixed_amount") from by decide]

/-- C3 (amended): for every store whose matching row satisfies the `Coupon`
model bounds, `validate_coupon_for_user` returns, without raising, exactly the
verdict of the claim's seven ordered short-circuiting checks — same validity,
the matching single error (empty list on success), the claimed discount with
the percentage cap applied only when `max_discount` is set and nonzero, and
the minimum-order amount from check 6. -/
theorem validate_coupon_matches_claimed_checks (st : CouponStore)
    (code uid : String) (amt : ℚ) (now : ℤ)
    (hwf : Option.all couponModelChecks
        (st.coupons.find? (fun c => c.coupon_code == code)) = true) :
    (validate_coupon_for_user st code uid amt now).1.map
        (fun v => (v.is_valid, v.validation_errors, v.estimated_discount,
                   v.min_order_required))
      = .ok ((claimValidationVerdict st code uid amt now).is_valid,
             (claimValidationVerdict st code uid amt now).error.toList,
             some (claimValidationVerdict st code uid amt now).discount_amount,
             (claimValidationVerdict st code uid amt now).min_order_required) := by
  unfold validate_coupon_for_user claimValidationVerdict get_by_coupon_code
    get_user_coupon_usage_count
  cases hfind : st.coupons.find? (fun c => c.coupon_code == code) with
  | none => simp [Except.map]
  | some c =>
    have hchk : couponModelChecks c = true := by
      rw [hfind] at hwf
      simpa [Option.all] using hwf
    have hul := (couponModelChecks_limits hchk).1
    have hpu := (couponModelChecks_limits hchk).2
    dsimp only
    simp only [to_model, hchk, if_true]
    rw [pyTruthyInt_eq_isSome hul, pyTruthyInt_eq_isSome hpu]
    by_cases hs : (c.status != "active") = true
    · simp [hs, Except.map]
    · by_cases h1 : now < c.valid_from
      · simp [hs, h1, Except.map]
      · by_cases h2 : c.valid_to < now
        · simp [hs, h1, h2, Except.map]
        · by_cases h3 : (c.usage_limit.isSome &&
              decide (c.usage_limit.getD 0 ≤ c.used_count)) = true
          · simp [hs, h1, h2, h3, Except.map]
          · by_cases h4 : amt < c.min_order_amount
            · simp [hs, h1, h2, h3, h4, Except.map]
            · by_cases hps : c.usage_limit_per_user.isSome = true
              · by_cases h5 : decide (c.usage_limit_per_user.getD 0 ≤
                    ((st.usages.filter (fun u => u.user_id == uid &&
                       u.coupon_id == c.coupon_id)).length : ℤ)) = true
                · simp [hs, h1, h2, h3, h4, hps, h5, Except.map]
                · simp [hs, h1, h2, h3, h4, hps, h5, Except.map,
                    code_discount_eq_claim]
              · simp [hs, h1, h2, h3, h4, hps, Except.map,
                  code_discount_eq_claim]

/-- Witness for C3's amended theorem at the Scenario A input (coupon
`PYTHON50`, order amount 300, within the validity window): the model-bounds
hypothesis is discharged by computation. -/
theorem validate_coupon_matches_claimed_checks_witness :
    (validate_coupon_for_user storePython50 "PYTHON50" "u1" 300 50).1.map
        (fun v => (v.is_valid, v.validation_errors, v.estimated_discount,
                   v.min_order_required))
      = .ok ((claimValidationVerdict storePython50 "PYTHON50" "u1" 300 50).is_valid,
             (claimValidationVerdict storePython50 "PYTHON50" "u1"
               300 50).error.toList,
             some (claimValidationVerdict storePython50 "PYTHON50" "u1"
               300 50).discount_amount,
             (claimValidationVerdict storePython50 "PYTHON50" "u1"
               300 50).min_order_required) :=
  validate_coupon_matches_claimed_checks storePython50 "PYTHON50" "u1" 300 50
    (by decide)

/-- C7 (counterexample): the claim says the computed discount is at most
`max_discount` whenever `max_discount` is set.  `zeroCapCoupon` is accepted by
the pydantic model (`max_discount` is `ge=0`, so 0 is legal), its
`max_discount` is set to 0, yet `calculate_discount 100` returns 20 — the cap
is applied through Python truthiness (`if self.max_discount and …`), which
skips a zero cap — and 20 is not at most 0. -/
theorem calculate_discount_zero_max_discount_cex :
    to_model zeroCapRow = .ok zeroCapCoupon ∧
    zeroCapCoupon.max_discount = some 0 ∧
    zeroCapCoupon.calculate_discount 100 = 20 ∧
    ¬ (zeroCapCoupon.calculate_discount 100 ≤ 0) := by
  refine ⟨?_, rfl, ?_, ?_⟩
  · norm_num [to_model, couponModelChecks, zeroCapRow, zeroCapCoupon,
      show "ZEROCAP".length = 7 from rfl,
      show ¬ ("percentage" = "fixed_amount") from by decide]
  · norm_num [Coupon.calculate_discount, zeroCapCoupon, pyTruthyQ, min_def]
  · norm_num [Coupon.calculate_discount, zeroCapCoupon, pyTruthyQ, min_def]

/-- C7 (amended): for every coupon and every order amount at least 0,
`calculate_discount` returns at most the order amount and, when
`max_discount` is set and positive, at most `max_discount`; and Scenario D
evaluates as claimed (percentage 0.20, cap 50.00, order 1000.00 gives
discount 50.00 and final 950.00). -/
theorem calculate_discount_bounds :
    (∀ (c : Coupon) (amt : ℚ), 0 ≤ amt →
        c.calculate_discount amt ≤ amt ∧
        ∀ m, c.max_discount = some m → 0 < m → c.calculate_discount amt ≤ m) ∧
    scenarioDCoupon.calculate_discount 1000 = 50 ∧
    (1000 : ℚ) - scenarioDCoupon.calculate_discount 1000 = 950 := by
  refine ⟨?_, ?_, ?_⟩
  · intro c amt h
    unfold Coupon.calculate_discount
    dsimp only
    by_cases hlt : amt < c.min_order_amount
    · rw [if_pos hlt]
      exact ⟨h, fun m _ hm => le_of_lt hm⟩
    · rw [if_neg hlt]
      refine ⟨?_, ?_⟩
      · by_cases hcap : (pyTruthyQ c.max_discount &&
            decide (c.max_discount.getD 0 <
              (if c.coupon_type == "percentage" then amt * c.discount_value
               else c.discount_value))) = true
        · rw [if_pos hcap]; exact min_le_right _ _
        · rw [if_neg hcap]; exact min_le_right _ _
      · intro m hm hmpos
        by_cases hcap : (pyTruthyQ c.max_discount &&
            decide (c.max_discount.getD 0 <
              (if c.coupon_type == "percentage" then amt * c.discount_value
               else c.discount_value))) = true
        · rw [if_pos hcap]
          have hgd : c.max_discount.getD 0 = m := by rw [hm]; rfl
          rw [hgd]
          exact min_le_left _ _
        · rw [if_neg hcap]
          have hmne : pyTruthyQ c.max_discount = true := by
            rw [hm]
            simp [pyTruthyQ]
            exact ne_of_gt hmpos
          have hdle : ¬ (c.max_discount.getD 0 <
              (if c.coupon_type == "percentage" then amt * c.discount_value
               else c.discount_value)) := by
            intro hlt2
            exact hcap (by rw [Bool.and_eq_true, hmne, decide_eq_true_eq]
                           exact ⟨rfl, hlt2⟩)
          have hgd : c.max_discount.getD 0 = m := by rw [hm]; rfl
          calc min (if c.coupon_type == "percentage" then amt * c.discount_value
                    else c.discount_value) amt
              ≤ (if c.coupon_type == "percentage" then amt * c.discount_value
                 else c.discount_value) := min_le_left _ _
            _ ≤ m := by rw [← hgd]; exact not_lt.mp hdle
  · norm_num [Coupon.calculate_discount, scenarioDCoupon, pyTruthyQ, min_def]
  · norm_num [Coupon.calculate_discount, scenarioDCoupon, pyTruthyQ, min_def]

/-- Witness for C7's amended theorem at the Scenario D coupon and order amount
1000. -/
theorem calculate_discount_bounds_witness :
    scenarioDCoupon.calculate_discount 1000 ≤ 1000 ∧
    scenarioDCoupon.calculate_discount 1000 ≤ 50 :=
  ⟨(calculate_discount_bounds.1 scenarioDCoupon 1000 (by norm_num)).1,
   (calculate_discount_bounds.1 scenarioDCoupon 1000 (by norm_num)).2 50 rfl
     (by norm_num)⟩

/-- C9: coupon validation is deterministic and side-effect free: the store
it returns is the store it was given (its body only threads the state of its
two SELECTs), so a second call with the same arguments against the returned
store yields the identical result. -/
theorem validate_coupon_pure_and_deterministic (st : CouponStore)
    (code uid : String) (amt : ℚ) (now : ℤ) :
    (validate_coupon_for_user st code uid amt now).2 = st ∧
    (validate_coupon_for_user (validate_coupon_for_user st code uid amt now).2
        code uid amt now).1
      = (validate_coupon_for_user st code uid amt now).1 := by
  have h2 : (validate_coupon_for_user st code uid amt now).2 = st := by
    unfold validate_coupon_for_user get_by_coupon_code get_user_coupon_usage_count
    repeat' split
    all_goals simp_all [apply_ite Prod.fst, apply_ite Prod.snd]
  exact ⟨h2, by rw [h2]⟩

/-- C10: `use_coupon` consumes unconditionally: whenever a row with the given
`coupon_id` exists — the statement places no condition on its `status`,
validity window or usage counts, so deactivated, expired and at-cap coupons
are consumed all the same — the call returns `true`, appends exactly the one
usage row shown and bumps the matching coupon's `used_count` by exactly 1;
when no such row exists it returns `false` and leaves the store unchanged. -/
theorem use_coupon_consumes_unconditionally (st : CouponStore)
    (coupon_id user_id order_id : String) (amt : ℚ) (uuid : String) (now : ℤ) :
    (∀ c, st.coupons.find? (fun x => x.coupon_id == coupon_id) = some c →
        use_coupon st coupon_id user_id order_id amt uuid now
          = (true,
             { coupons := st.coupons.map (fun x =>
                 if x.coupon_id == coupon_id then
                   { x with used_count := x.used_count + 1, updated_at := now }
                 else x),
               usages := st.usages ++
                 [{ usage_id := uuid, coupon_id := coupon_id,
                    coupon_code := c.coupon_code, user_id := user_id,
                    order_id := some order_id, course_ids := [],
                    original_amount := amt, discount_amount := amt,
                    final_amount := 0, used_at := now }] })) ∧
    (st.coupons.find? (fun x => x.coupon_id == coupon_id) = none →
        use_coupon st coupon_id user_id order_id amt uuid now = (false, st)) := by
  constructor
  · intro c hc
    unfold use_coupon get_by_coupon_id
    rw [hc]
  · intro hc
    unfold use_coupon get_by_coupon_id
    rw [hc]

/-- Witness for C10 at a store whose only coupon is deactivated
(`status = "expired"`), past its window and at its usage cap: `use_coupon`
still consumes it (returns true, one usage row, `used_count` 3 to 4), and an
absent id yields `false` with the store unchanged. -/
theorem use_coupon_consumes_unconditionally_witness :
    use_coupon storeStale "cpStale" "u1" "o1" 10 "uuid1" 100
      = (true,
         { coupons := [{ staleCoupon with used_count := 4, updated_at := 100 }],
           usages := [{ usage_id := "uuid1", coupon_id := "cpStale",
                        coupon_code := "STALE", user_id := "u1",
                        order_id := some "o1", course_ids := [],
                        original_amount := 10, discount_amount := 10,
                        final_amount := 0, used_at := 100 }] }) ∧
    use_coupon storeStale "missing" "u1" "o1" 10 "uuid1" 100
      = (false, storeStale) := by
  constructor
  · rw [(use_coupon_consumes_unconditionally storeStale "cpStale" "u1" "o1"
        10 "uuid1" 100).1 staleCoupon rfl]
    rfl
  · exact (use_coupon_consumes_unconditionally storeStale "missing" "u1" "o1"
      10 "uuid1" 100).2 rfl

/-- C8: unresolved course ids are silently dropped — `_get_courses` returns
the same list when the unresolvable ids are removed from its input — but the
claimed zeroed result for an input resolving no courses is never produced:
`_empty_price_calculation` builds `PriceCalculation(original_total=0, …)`,
whose model requires `course_items`/`original_amount`/`final_amount`/
`savings`/`savings_percentage`, so pydantic raises a validation error and
`calculate_price_with_options` propagates it. -/
theorem calculate_price_drops_missing_and_empty_errors :
    (∀ (crs : CourseStore) (ids : List String),
        get_courses crs ids
          = get_courses crs (ids.filter (fun i => (crs i).isSome))) ∧
    (∀ (crs : CourseStore) (st : CouponStore) (ids : List String)
        (uid : String) (profile : Option UserProfile) (code : Option String)
        (now : ℤ), (∀ i ∈ ids, crs i = none) →
        (calculate_price_with_options crs st ids uid profile code now).1
          = .error (.validationError "PriceCalculation"
              ["course_items", "original_amount", "final_amount", "savings",
               "savings_percentage"])) := by
  constructor
  · intro crs ids
    induction ids with
    | nil => rfl
    | cons a l ih =>
      cases hc : crs a with
      | none =>
        simp only [get_courses, List.filterMap_cons, List.filter_cons, hc,
          Option.isSome_none, Bool.false_eq_true, if_false, cond_false]
        exact ih
      | some c =>
        simp only [get_courses, List.filterMap_cons, List.filter_cons, hc,
          Option.isSome_some, if_true, cond_true]
        simpa [get_courses] using ih
  · intro crs st ids uid profile code now h
    have hc : get_courses crs ids = [] := by
      simp only [get_courses]
      exact List.filterMap_eq_nil_iff.mpr h
    simp only [calculate_price_with_options, hc, List.isEmpty_nil, if_true]
    rfl

/-- Witness for C8 at a store resolving nothing and the one-element id list
`["cX"]`: the call returns the pydantic validation error, not the zeroed
result. -/
theorem calculate_price_drops_missing_and_empty_errors_witness :
    (calculate_price_with_options courseStoreEmptyFn emptyCouponStore ["cX"]
        "u1" none none 0).1
      = .error (.validationError "PriceCalculation"
          ["course_items", "original_amount", "final_amount", "savings",
           "savings_percentage"]) :=
  calculate_price_drops_missing_and_empty_errors.2 courseStoreEmptyFn
    emptyCouponStore ["cX"] "u1" none none 0 (by intro i _; rfl)
